import Mathlib

/-!
Verification of the Intuition v2 client example scripts.

Each Python example script's `main` is embedded shallowly as a Lean function
from an oracle of remote-chain responses (`Chain`) to the ordered trace of
chain interactions it performs (`List Step`) together with its outcome
(`Outcome`).  Python `raise` statements become the error variants of
`Outcome`; early `return`s become the non-error short-circuit variants.
Integer arithmetic in the scripts is Python arbitrary-precision arithmetic:
nonnegative quantities are `Nat`, and the floor division `//` used by the
slippage formula is `Int.fdiv` where signs can differ.
-/

namespace Intuition

abbrev Amount := Nat

abbrev TermId := Nat

abbrev Address := String

def MULTIVAULT_ADDRESS : Address := "0x6E35cF57A41fA15eA0EaE9C33e751b01A784Fe7e"

def WTRUST_ADDRESS : Address := "0x81cFb09cb44f7184Ad934C09F82000701A4bF672"

def TRUST_BONDING_ADDRESS : Address := "0x635bBD1367B66E7B16a21D6E5A63C812fFC00617"

/-- Web3.to_wei(1, 'ether'). -/
def weiPerEther : Nat := 1000000000000000000

/-- A state-changing contract call submitted as a transaction. -/
inductive TxCall
  | approve (spender : Address) (amount : Amount)
  | createAtoms (atomDatas : List String) (assets : List Amount)
  | createTriples (subjectIds predicateIds objectIds : List TermId)
      (assets : List Amount)
  | deposit (receiver : Address) (termId : TermId) (curveId : Nat)
      (minShares : Amount)
  | redeem (receiver : Address) (termId : TermId) (curveId : Nat)
      (shares : Amount) (minAssets : Amount)
  | claimRewards (recipient : Address)
  deriving DecidableEq

/-- One chain interaction performed by a script, in program order:
view-function reads, transaction submissions, and receipt waits. -/
inductive Step
  | readEthBalance (account : Address)
  | readBalanceOf (account : Address)
  | readAtomCost
  | readTripleCost
  | readCalculateAtomId (data : String)
  | readCalculateTripleId (s p o : TermId)
  | readIsTermCreated (id : TermId)
  | readAllowance (owner spender : Address)
  | readGetShares (account : Address) (termId : TermId) (curveId : Nat)
  | readPreviewDeposit (termId : TermId) (curveId : Nat) (assets : Amount)
  | readPreviewRedeem (termId : TermId) (curveId : Nat) (shares : Amount)
  | readCurrentEpoch
  | readPreviousEpoch
  | readGetUserInfo (account : Address)
  | readGetClaimable (account : Address)
  | readGetUserApy (account : Address)
  | submitTx (tx : TxCall)
  | awaitReceipt (tx : TxCall)
  deriving DecidableEq

/-- Whether a step submits a transaction. -/
def Step.isSubmit : Step → Bool
  | .submitTx _ => true
  | _ => false

/-- Whether a step awaits the receipt of an ERC20 approval transaction. -/
def Step.isApproveAwait : Step → Bool
  | .awaitReceipt (.approve _ _) => true
  | _ => false

/-- The getUserInfo tuple returned by TrustBonding. -/
structure UserInfo where
  personalUtilization : Amount
  eligibleRewards : Amount
  maxRewards : Amount
  lockedAmount : Amount
  lockEnd : Amount
  bondedBalance : Amount

/-- Oracle of remote responses: every read a script can perform is a field,
so a script run is a deterministic function of this record. -/
structure Chain where
  connected : Bool
  ethBalance : Address → Amount
  balanceOf : Address → Amount
  allowance : Address → Address → Amount
  atomCost : Amount
  tripleCost : Amount
  calculateAtomId : String → TermId
  calculateTripleId : TermId → TermId → TermId → TermId
  isTermCreated : TermId → Bool
  getShares : Address → TermId → Nat → Amount
  previewDeposit : TermId → Nat → Amount → Amount × Amount
  previewRedeem : TermId → Nat → Amount → Amount × Amount
  currentEpoch : Nat
  previousEpoch : Nat
  getUserInfo : Address → UserInfo
  getClaimable : Address → Amount
  getUserApy : Address → Amount × Amount

/-- How a script's `main` ends.  Error variants correspond to Python `raise`
statements (caught by the `__main__` wrapper, which exits with status 1);
the other variants are normal returns (exit status 0). -/
inductive Outcome
  | ok
  | alreadyExists (id : TermId)
  | noShares
  | noBondedBalance
  | noClaimable
  | errNotConnected
  | errInsufficientBalance (needed available : Amount)
  | errMissingAtom (id : TermId)
  | errVaultMissing
  deriving DecidableEq

/-- True exactly on the variants that embed a raised exception. -/
def Outcome.isError : Outcome → Bool
  | .errNotConnected => true
  | .errInsufficientBalance _ _ => true
  | .errMissingAtom _ => true
  | .errVaultMissing => true
  | _ => false

/-- A script run: the trace of chain interactions and the outcome. -/
abbrev Run := List Step × Outcome

/-- The `__main__` wrapper: `exit(1)` when an exception propagates out of
`main`, normal interpreter exit (status 0) otherwise. -/
def exitCode (o : Outcome) : Nat := if o.isError then 1 else 0

/-- The slippage formula shared by deposit-vault.py line 57 and
redeem-shares.py line 54: `expected * (10000 - slippageBps) // 10000` with
Python floor division, over arbitrary-precision integers. -/
def slippageBound (expected slippageBps : Int) : Int :=
  (expected * (10000 - slippageBps)).fdiv 10000

namespace CreateAtom

def ATOM_DATA : String := "My First Atom"

def DEPOSIT_AMOUNT : Amount := 10 * weiPerEther

/-- create-atom.py `main`: connect, check WTRUST balance against
deposit + atom cost, derive the atom id, stop if it already exists,
raise the allowance when below the total (awaiting the approval receipt),
then submit `createAtoms` and await its receipt. -/
def main (c : Chain) (account : Address) : Run :=
  if !c.connected then ([], .errNotConnected)
  else
    let wtrustBalance := c.balanceOf account
    let atomCost := c.atomCost
    let totalRequired := DEPOSIT_AMOUNT + atomCost
    let steps1 := [Step.readEthBalance account, Step.readBalanceOf account,
      Step.readAtomCost]
    if wtrustBalance < totalRequired then
      (steps1, .errInsufficientBalance totalRequired wtrustBalance)
    else
      let atomId := c.calculateAtomId ATOM_DATA
      let steps2 := steps1 ++ [Step.readCalculateAtomId ATOM_DATA,
        Step.readIsTermCreated atomId]
      if c.isTermCreated atomId then (steps2, .alreadyExists atomId)
      else
        let currentAllowance := c.allowance account MULTIVAULT_ADDRESS
        let steps3 := steps2 ++ [Step.readAllowance account MULTIVAULT_ADDRESS]
        let approveTx := TxCall.approve MULTIVAULT_ADDRESS totalRequired
        let steps4 :=
          if currentAllowance < totalRequired then
            steps3 ++ [Step.submitTx approveTx, Step.awaitReceipt approveTx]
          else steps3
        let createTx := TxCall.createAtoms [ATOM_DATA] [DEPOSIT_AMOUNT]
        (steps4 ++ [Step.submitTx createTx, Step.awaitReceipt createTx], .ok)

end CreateAtom

namespace CreateTriple

def SUBJECT_ID : TermId := 1

def PREDICATE_ID : TermId := 2

def OBJECT_ID : TermId := 3

def DEPOSIT_AMOUNT : Amount := 20 * weiPerEther

/-- create-triple.py `main`: verify each of subject, predicate, object exists
(raising at the first missing one), derive the triple id, stop if it already
exists, then approve deposit + triple cost (without awaiting the approval
receipt) and submit `createTriples`, awaiting only the creation receipt. -/
def main (c : Chain) (account : Address) : Run :=
  if !c.isTermCreated SUBJECT_ID then
    ([Step.readIsTermCreated SUBJECT_ID], .errMissingAtom SUBJECT_ID)
  else if !c.isTermCreated PREDICATE_ID then
    ([Step.readIsTermCreated SUBJECT_ID, Step.readIsTermCreated PREDICATE_ID],
      .errMissingAtom PREDICATE_ID)
  else if !c.isTermCreated OBJECT_ID then
    ([Step.readIsTermCreated SUBJECT_ID, Step.readIsTermCreated PREDICATE_ID,
      Step.readIsTermCreated OBJECT_ID], .errMissingAtom OBJECT_ID)
  else
    let tripleId := c.calculateTripleId SUBJECT_ID PREDICATE_ID OBJECT_ID
    let steps1 := [Step.readIsTermCreated SUBJECT_ID,
      Step.readIsTermCreated PREDICATE_ID, Step.readIsTermCreated OBJECT_ID,
      Step.readCalculateTripleId SUBJECT_ID PREDICATE_ID OBJECT_ID,
      Step.readIsTermCreated tripleId]
    if c.isTermCreated tripleId then (steps1, .alreadyExists tripleId)
    else
      let tripleCost := c.tripleCost
      let totalAmount := DEPOSIT_AMOUNT + tripleCost
      let approveTx := TxCall.approve MULTIVAULT_ADDRESS totalAmount
      let createTx := TxCall.createTriples [SUBJECT_ID] [PREDICATE_ID]
        [OBJECT_ID] [DEPOSIT_AMOUNT]
      (steps1 ++ [Step.readTripleCost, Step.submitTx approveTx,
        Step.submitTx createTx, Step.awaitReceipt createTx], .ok)

end CreateTriple

namespace DepositVault

def TERM_ID : TermId := 1

def CURVE_ID : Nat := 1

def DEPOSIT_AMOUNT : Amount := 5 * weiPerEther

def SLIPPAGE_BPS : Nat := 100

/-- deposit-vault.py `main`: verify the vault exists, read current shares,
preview the deposit, compute the slippage floor, approve exactly the deposit
amount (without awaiting the approval receipt), submit `deposit` with
`minShares`, await its receipt, and read the new share balance. -/
def main (c : Chain) (account : Address) : Run :=
  if !c.isTermCreated TERM_ID then
    ([Step.readIsTermCreated TERM_ID], .errVaultMissing)
  else
    let expectedShares := (c.previewDeposit TERM_ID CURVE_ID DEPOSIT_AMOUNT).1
    let minShares := expectedShares * (10000 - SLIPPAGE_BPS) / 10000
    let approveTx := TxCall.approve MULTIVAULT_ADDRESS DEPOSIT_AMOUNT
    let depositTx := TxCall.deposit account TERM_ID CURVE_ID minShares
    ([Step.readIsTermCreated TERM_ID,
      Step.readGetShares account TERM_ID CURVE_ID,
      Step.readPreviewDeposit TERM_ID CURVE_ID DEPOSIT_AMOUNT,
      Step.submitTx approveTx,
      Step.submitTx depositTx, Step.awaitReceipt depositTx,
      Step.readGetShares account TERM_ID CURVE_ID], .ok)

end DepositVault

namespace RedeemShares

def TERM_ID : TermId := 1

def CURVE_ID : Nat := 1

def SHARES_TO_REDEEM : Amount := 5 * weiPerEther

def SLIPPAGE_BPS : Nat := 100

/-- redeem-shares.py `main`: read the current share balance, return at once
when it is zero, clamp the requested shares to the balance, preview the
redemption, compute the slippage floor, submit `redeem` and await its
receipt, then read the remaining balance. -/
def main (c : Chain) (account : Address) : Run :=
  let currentShares := c.getShares account TERM_ID CURVE_ID
  let steps1 := [Step.readGetShares account TERM_ID CURVE_ID]
  if currentShares = 0 then (steps1, .noShares)
  else
    let sharesToRedeem := min SHARES_TO_REDEEM currentShares
    let expectedAssets := (c.previewRedeem TERM_ID CURVE_ID sharesToRedeem).1
    let minAssets := expectedAssets * (10000 - SLIPPAGE_BPS) / 10000
    let redeemTx := TxCall.redeem account TERM_ID CURVE_ID sharesToRedeem
      minAssets
    (steps1 ++ [Step.readPreviewRedeem TERM_ID CURVE_ID sharesToRedeem,
      Step.submitTx redeemTx, Step.awaitReceipt redeemTx,
      Step.readGetShares account TERM_ID CURVE_ID], .ok)

end RedeemShares

namespace ClaimRewards

/-- claim-rewards.py `main`: read epochs and user info, return at once when
the bonded balance is zero, read claimable rewards, return at once when they
are zero, read APY, then submit `claimRewards(account)` and await its
receipt. -/
def main (c : Chain) (account : Address) : Run :=
  let info := c.getUserInfo account
  let bondedBalance := info.bondedBalance
  let steps1 := [Step.readCurrentEpoch, Step.readPreviousEpoch,
    Step.readGetUserInfo account]
  if bondedBalance = 0 then (steps1, .noBondedBalance)
  else
    let claimable := c.getClaimable account
    let steps2 := steps1 ++ [Step.readGetClaimable account]
    if claimable = 0 then (steps2, .noClaimable)
    else
      let claimTx := TxCall.claimRewards account
      (steps2 ++ [Step.readGetUserApy account, Step.submitTx claimTx,
        Step.awaitReceipt claimTx], .ok)

end ClaimRewards

namespace EventIndexer

/-- The four event kinds whose keccak signature hashes head the scripts'
topic filters. -/
inductive EventKind
  | atomCreated
  | tripleCreated
  | deposited
  | redeemed
  deriving DecidableEq

/-- A topic in a log filter: either an event-signature hash or the
hex-string topic built from a user address. -/
inductive Topic
  | sig (k : EventKind)
  | user (t : String)
  deriving DecidableEq

/-- A `get_logs` filter as the scripts build it. -/
structure LogFilter where
  fromBlock : Nat
  toBlock : Nat
  address : Address
  topics : List Topic
  deriving DecidableEq

/-- Python `str.zfill`: left-pad with ASCII zeros to the given width. -/
def zfill (s : String) (width : Nat) : String :=
  String.mk (List.replicate (width - s.length) '0') ++ s

/-- event-indexer.py line 95: `'0x' + user_address[2:].zfill(64)`. -/
def userTopicOf (userAddress : String) : String :=
  "0x" ++ zfill (userAddress.drop 2) 64

/-- query_historical_events: the range queries it issues, in order — one per
event kind against the MultiVault address, topics holding only the kind's
signature hash. -/
def query_historical_events (fromBlock toBlock : Nat) :
    List (EventKind × LogFilter) :=
  [(.atomCreated,
      ⟨fromBlock, toBlock, MULTIVAULT_ADDRESS, [.sig .atomCreated]⟩),
   (.tripleCreated,
      ⟨fromBlock, toBlock, MULTIVAULT_ADDRESS, [.sig .tripleCreated]⟩),
   (.deposited,
      ⟨fromBlock, toBlock, MULTIVAULT_ADDRESS, [.sig .deposited]⟩),
   (.redeemed,
      ⟨fromBlock, toBlock, MULTIVAULT_ADDRESS, [.sig .redeemed]⟩)]

/-- query_user_events: the range queries it issues, in order — only
AtomCreated, Deposited and Redeemed, each with the padded user topic
appended after the signature hash. -/
def query_user_events (userAddress : String) (fromBlock toBlock : Nat) :
    List (EventKind × LogFilter) :=
  let userTopic := Topic.user (userTopicOf userAddress)
  [(.atomCreated,
      ⟨fromBlock, toBlock, MULTIVAULT_ADDRESS,
        [.sig .atomCreated, userTopic]⟩),
   (.deposited,
      ⟨fromBlock, toBlock, MULTIVAULT_ADDRESS,
        [.sig .deposited, userTopic]⟩),
   (.redeemed,
      ⟨fromBlock, toBlock, MULTIVAULT_ADDRESS,
        [.sig .redeemed, userTopic]⟩)]

end EventIndexer

/-! ## Helper lemmas -/

theorem slippageBound_eq_ediv (e b : Int) :
    slippageBound e b = e * (10000 - b) / 10000 := by
  unfold slippageBound
  exact Int.fdiv_eq_ediv _ (by norm_num)

/-- The scripts' `Nat` slippage computation instantiates `slippageBound`
at the scripts' basis-point constants. -/
theorem slippageBound_ofNat (e b : Nat) (hb : b ≤ 10000) :
    slippageBound (e : Int) (b : Int) = ((e * (10000 - b) / 10000 : Nat) : Int) := by
  unfold slippageBound
  rw [Int.ofNat_fdiv]
  congr 1
  have hcast : ((10000 - b : Nat) : Int) = 10000 - (b : Int) := by
    push_cast [Nat.cast_sub hb]
    ring
  push_cast [hcast]
  ring

theorem slippageBound_le_aux (e b : Int) (he : 0 ≤ e) (hb : 0 ≤ b) :
    slippageBound e b ≤ e := by
  rw [slippageBound_eq_ediv]
  have h1 : e * (10000 - b) ≤ e * 10000 := by nlinarith
  have h2 : e * (10000 - b) / 10000 ≤ e * 10000 / 10000 :=
    Int.ediv_le_ediv (by norm_num) h1
  rwa [Int.mul_ediv_cancel e (by norm_num)] at h2

theorem slippageBound_zero_bps (e : Int) : slippageBound e 0 = e := by
  rw [slippageBound_eq_ediv]
  norm_num

theorem slippageBound_zero_expected (b : Int) : slippageBound 0 b = 0 := by
  unfold slippageBound
  rw [zero_mul]
  exact Int.zero_fdiv _

theorem slippageBound_lt (e b : Int) (he : 1 ≤ e) (hb : 1 ≤ b) :
    slippageBound e b < e := by
  rw [slippageBound_eq_ediv]
  rw [Int.ediv_lt_iff_lt_mul (by norm_num : (0:Int) < 10000)]
  nlinarith

theorem forall_mem_of_all {p : Step → Bool} {l : List Step}
    (h : (l.all fun s => !p s) = true) : ∀ s ∈ l, p s = false := by
  intro s hs
  have hps := List.all_eq_true.mp h s hs
  simpa using hps

/-! ## Branch lemmas: the exact run of each script on each control path -/

theorem CreateAtom.main_atom_already_exists (c : Chain) (acct : Address)
    (hconn : c.connected = true)
    (hbal : ¬ c.balanceOf acct < CreateAtom.DEPOSIT_AMOUNT + c.atomCost)
    (hex : c.isTermCreated (c.calculateAtomId CreateAtom.ATOM_DATA) = true) :
    CreateAtom.main c acct =
      ([Step.readEthBalance acct, Step.readBalanceOf acct, Step.readAtomCost,
        Step.readCalculateAtomId CreateAtom.ATOM_DATA,
        Step.readIsTermCreated (c.calculateAtomId CreateAtom.ATOM_DATA)],
       .alreadyExists (c.calculateAtomId CreateAtom.ATOM_DATA)) := by
  unfold CreateAtom.main
  simp [hconn, hbal, hex]

theorem CreateAtom.main_approves (c : Chain) (acct : Address)
    (hconn : c.connected = true)
    (hbal : ¬ c.balanceOf acct < CreateAtom.DEPOSIT_AMOUNT + c.atomCost)
    (hex : c.isTermCreated (c.calculateAtomId CreateAtom.ATOM_DATA) = false)
    (hlow : c.allowance acct MULTIVAULT_ADDRESS <
      CreateAtom.DEPOSIT_AMOUNT + c.atomCost) :
    CreateAtom.main c acct =
      ([Step.readEthBalance acct, Step.readBalanceOf acct, Step.readAtomCost,
        Step.readCalculateAtomId CreateAtom.ATOM_DATA,
        Step.readIsTermCreated (c.calculateAtomId CreateAtom.ATOM_DATA),
        Step.readAllowance acct MULTIVAULT_ADDRESS,
        Step.submitTx (TxCall.approve MULTIVAULT_ADDRESS
          (CreateAtom.DEPOSIT_AMOUNT + c.atomCost)),
        Step.awaitReceipt (TxCall.approve MULTIVAULT_ADDRESS
          (CreateAtom.DEPOSIT_AMOUNT + c.atomCost)),
        Step.submitTx (TxCall.createAtoms [CreateAtom.ATOM_DATA]
          [CreateAtom.DEPOSIT_AMOUNT]),
        Step.awaitReceipt (TxCall.createAtoms [CreateAtom.ATOM_DATA]
          [CreateAtom.DEPOSIT_AMOUNT])],
       .ok) := by
  unfold CreateAtom.main
  simp [hconn, hbal, hex, hlow]

theorem CreateAtom.main_skips_approval (c : Chain) (acct : Address)
    (hconn : c.connected = true)
    (hbal : ¬ c.balanceOf acct < CreateAtom.DEPOSIT_AMOUNT + c.atomCost)
    (hex : c.isTermCreated (c.calculateAtomId CreateAtom.ATOM_DATA) = false)
    (hhigh : ¬ c.allowance acct MULTIVAULT_ADDRESS <
      CreateAtom.DEPOSIT_AMOUNT + c.atomCost) :
    CreateAtom.main c acct =
      ([Step.readEthBalance acct, Step.readBalanceOf acct, Step.readAtomCost,
        Step.readCalculateAtomId CreateAtom.ATOM_DATA,
        Step.readIsTermCreated (c.calculateAtomId CreateAtom.ATOM_DATA),
        Step.readAllowance acct MULTIVAULT_ADDRESS,
        Step.submitTx (TxCall.createAtoms [CreateAtom.ATOM_DATA]
          [CreateAtom.DEPOSIT_AMOUNT]),
        Step.awaitReceipt (TxCall.createAtoms [CreateAtom.ATOM_DATA]
          [CreateAtom.DEPOSIT_AMOUNT])],
       .ok) := by
  unfold CreateAtom.main
  simp [hconn, hbal, hex, hhigh]

theorem CreateTriple.main_missing_subject (c : Chain) (acct : Address)
    (h1 : c.isTermCreated CreateTriple.SUBJECT_ID = false) :
    CreateTriple.main c acct =
      ([Step.readIsTermCreated CreateTriple.SUBJECT_ID],
       .errMissingAtom CreateTriple.SUBJECT_ID) := by
  unfold CreateTriple.main
  simp [h1]

theorem CreateTriple.main_missing_predicate (c : Chain) (acct : Address)
    (h1 : c.isTermCreated CreateTriple.SUBJECT_ID = true)
    (h2 : c.isTermCreated CreateTriple.PREDICATE_ID = false) :
    CreateTriple.main c acct =
      ([Step.readIsTermCreated CreateTriple.SUBJECT_ID,
        Step.readIsTermCreated CreateTriple.PREDICATE_ID],
       .errMissingAtom CreateTriple.PREDICATE_ID) := by
  unfold CreateTriple.main
  simp [h1, h2]

theorem CreateTriple.main_missing_object (c : Chain) (acct : Address)
    (h1 : c.isTermCreated CreateTriple.SUBJECT_ID = true)
    (h2 : c.isTermCreated CreateTriple.PREDICATE_ID = true)
    (h3 : c.isTermCreated CreateTriple.OBJECT_ID = false) :
    CreateTriple.main c acct =
      ([Step.readIsTermCreated CreateTriple.SUBJECT_ID,
        Step.readIsTermCreated CreateTriple.PREDICATE_ID,
        Step.readIsTermCreated CreateTriple.OBJECT_ID],
       .errMissingAtom CreateTriple.OBJECT_ID) := by
  unfold CreateTriple.main
  simp [h1, h2, h3]

theorem CreateTriple.main_triple_already_exists (c : Chain) (acct : Address)
    (h1 : c.isTermCreated CreateTriple.SUBJECT_ID = true)
    (h2 : c.isTermCreated CreateTriple.PREDICATE_ID = true)
    (h3 : c.isTermCreated CreateTriple.OBJECT_ID = true)
    (hex : c.isTermCreated (c.calculateTripleId CreateTriple.SUBJECT_ID
      CreateTriple.PREDICATE_ID CreateTriple.OBJECT_ID) = true) :
    CreateTriple.main c acct =
      ([Step.readIsTermCreated CreateTriple.SUBJECT_ID,
        Step.readIsTermCreated CreateTriple.PREDICATE_ID,
        Step.readIsTermCreated CreateTriple.OBJECT_ID,
        Step.readCalculateTripleId CreateTriple.SUBJECT_ID
          CreateTriple.PREDICATE_ID CreateTriple.OBJECT_ID,
        Step.readIsTermCreated (c.calculateTripleId CreateTriple.SUBJECT_ID
          CreateTriple.PREDICATE_ID CreateTriple.OBJECT_ID)],
       .alreadyExists (c.calculateTripleId CreateTriple.SUBJECT_ID
         CreateTriple.PREDICATE_ID CreateTriple.OBJECT_ID)) := by
  unfold CreateTriple.main
  simp [h1, h2, h3, hex]

theorem CreateTriple.main_creates (c : Chain) (acct : Address)
    (h1 : c.isTermCreated CreateTriple.SUBJECT_ID = true)
    (h2 : c.isTermCreated CreateTriple.PREDICATE_ID = true)
    (h3 : c.isTermCreated CreateTriple.OBJECT_ID = true)
    (hex : c.isTermCreated (c.calculateTripleId CreateTriple.SUBJECT_ID
      CreateTriple.PREDICATE_ID CreateTriple.OBJECT_ID) = false) :
    CreateTriple.main c acct =
      ([Step.readIsTermCreated CreateTriple.SUBJECT_ID,
        Step.readIsTermCreated CreateTriple.PREDICATE_ID,
        Step.readIsTermCreated CreateTriple.OBJECT_ID,
        Step.readCalculateTripleId CreateTriple.SUBJECT_ID
          CreateTriple.PREDICATE_ID CreateTriple.OBJECT_ID,
        Step.readIsTermCreated (c.calculateTripleId CreateTriple.SUBJECT_ID
          CreateTriple.PREDICATE_ID CreateTriple.OBJECT_ID),
        Step.readTripleCost,
        Step.submitTx (TxCall.approve MULTIVAULT_ADDRESS
          (CreateTriple.DEPOSIT_AMOUNT + c.tripleCost)),
        Step.submitTx (TxCall.createTriples [CreateTriple.SUBJECT_ID]
          [CreateTriple.PREDICATE_ID] [CreateTriple.OBJECT_ID]
          [CreateTriple.DEPOSIT_AMOUNT]),
        Step.awaitReceipt (TxCall.createTriples [CreateTriple.SUBJECT_ID]
          [CreateTriple.PREDICATE_ID] [CreateTriple.OBJECT_ID]
          [CreateTriple.DEPOSIT_AMOUNT])],
       .ok) := by
  unfold CreateTriple.main
  simp [h1, h2, h3, hex]

theorem DepositVault.main_vault_missing (c : Chain) (acct : Address)
    (h : c.isTermCreated DepositVault.TERM_ID = false) :
    DepositVault.main c acct =
      ([Step.readIsTermCreated DepositVault.TERM_ID], .errVaultMissing) := by
  unfold DepositVault.main
  simp [h]

theorem DepositVault.main_deposits (c : Chain) (acct : Address)
    (h : c.isTermCreated DepositVault.TERM_ID = true) :
    DepositVault.main c acct =
      ([Step.readIsTermCreated DepositVault.TERM_ID,
        Step.readGetShares acct DepositVault.TERM_ID DepositVault.CURVE_ID,
        Step.readPreviewDeposit DepositVault.TERM_ID DepositVault.CURVE_ID
          DepositVault.DEPOSIT_AMOUNT,
        Step.submitTx (TxCall.approve MULTIVAULT_ADDRESS
          DepositVault.DEPOSIT_AMOUNT),
        Step.submitTx (TxCall.deposit acct DepositVault.TERM_ID
          DepositVault.CURVE_ID
          ((c.previewDeposit DepositVault.TERM_ID DepositVault.CURVE_ID
            DepositVault.DEPOSIT_AMOUNT).1 *
              (10000 - DepositVault.SLIPPAGE_BPS) / 10000)),
        Step.awaitReceipt (TxCall.deposit acct DepositVault.TERM_ID
          DepositVault.CURVE_ID
          ((c.previewDeposit DepositVault.TERM_ID DepositVault.CURVE_ID
            DepositVault.DEPOSIT_AMOUNT).1 *
              (10000 - DepositVault.SLIPPAGE_BPS) / 10000)),
        Step.readGetShares acct DepositVault.TERM_ID DepositVault.CURVE_ID],
       .ok) := by
  unfold DepositVault.main
  simp [h]

theorem RedeemShares.main_no_shares (c : Chain) (acct : Address)
    (h : c.getShares acct RedeemShares.TERM_ID RedeemShares.CURVE_ID = 0) :
    RedeemShares.main c acct =
      ([Step.readGetShares acct RedeemShares.TERM_ID RedeemShares.CURVE_ID],
       .noShares) := by
  unfold RedeemShares.main
  simp [h]

theorem RedeemShares.main_redeems (c : Chain) (acct : Address)
    (h : c.getShares acct RedeemShares.TERM_ID RedeemShares.CURVE_ID ≠ 0) :
    RedeemShares.main c acct =
      ([Step.readGetShares acct RedeemShares.TERM_ID RedeemShares.CURVE_ID,
        Step.readPreviewRedeem RedeemShares.TERM_ID RedeemShares.CURVE_ID
          (min RedeemShares.SHARES_TO_REDEEM
            (c.getShares acct RedeemShares.TERM_ID RedeemShares.CURVE_ID)),
        Step.submitTx (TxCall.redeem acct RedeemShares.TERM_ID
          RedeemShares.CURVE_ID
          (min RedeemShares.SHARES_TO_REDEEM
            (c.getShares acct RedeemShares.TERM_ID RedeemShares.CURVE_ID))
          ((c.previewRedeem RedeemShares.TERM_ID RedeemShares.CURVE_ID
            (min RedeemShares.SHARES_TO_REDEEM
              (c.getShares acct RedeemShares.TERM_ID
                RedeemShares.CURVE_ID))).1 *
              (10000 - RedeemShares.SLIPPAGE_BPS) / 10000)),
        Step.awaitReceipt (TxCall.redeem acct RedeemShares.TERM_ID
          RedeemShares.CURVE_ID
          (min RedeemShares.SHARES_TO_REDEEM
            (c.getShares acct RedeemShares.TERM_ID RedeemShares.CURVE_ID))
          ((c.previewRedeem RedeemShares.TERM_ID RedeemShares.CURVE_ID
            (min RedeemShares.SHARES_TO_REDEEM
              (c.getShares acct RedeemShares.TERM_ID
                RedeemShares.CURVE_ID))).1 *
              (10000 - RedeemShares.SLIPPAGE_BPS) / 10000)),
        Step.readGetShares acct RedeemShares.TERM_ID RedeemShares.CURVE_ID],
       .ok) := by
  unfold RedeemShares.main
  simp [h]

theorem ClaimRewards.main_no_bonded (c : Chain) (acct : Address)
    (h : (c.getUserInfo acct).bondedBalance = 0) :
    ClaimRewards.main c acct =
      ([Step.readCurrentEpoch, Step.readPreviousEpoch,
        Step.readGetUserInfo acct], .noBondedBalance) := by
  unfold ClaimRewards.main
  simp [h]

theorem ClaimRewards.main_no_claimable (c : Chain) (acct : Address)
    (h : (c.getUserInfo acct).bondedBalance ≠ 0)
    (h2 : c.getClaimable acct = 0) :
    ClaimRewards.main c acct =
      ([Step.readCurrentEpoch, Step.readPreviousEpoch,
        Step.readGetUserInfo acct, Step.readGetClaimable acct],
       .noClaimable) := by
  unfold ClaimRewards.main
  simp [h, h2]

theorem CreateAtom.main_not_connected (c : Chain) (acct : Address)
    (h : c.connected = false) :
    CreateAtom.main c acct = ([], .errNotConnected) := by
  unfold CreateAtom.main
  simp [h]

theorem CreateAtom.main_insufficient_balance (c : Chain) (acct : Address)
    (hconn : c.connected = true)
    (hbal : c.balanceOf acct < CreateAtom.DEPOSIT_AMOUNT + c.atomCost) :
    CreateAtom.main c acct =
      ([Step.readEthBalance acct, Step.readBalanceOf acct, Step.readAtomCost],
       .errInsufficientBalance (CreateAtom.DEPOSIT_AMOUNT + c.atomCost)
         (c.balanceOf acct)) := by
  unfold CreateAtom.main
  simp [hconn, hbal]

theorem ClaimRewards.main_claims (c : Chain) (acct : Address)
    (h : (c.getUserInfo acct).bondedBalance ≠ 0)
    (h2 : c.getClaimable acct ≠ 0) :
    ClaimRewards.main c acct =
      ([Step.readCurrentEpoch, Step.readPreviousEpoch,
        Step.readGetUserInfo acct, Step.readGetClaimable acct,
        Step.readGetUserApy acct,
        Step.submitTx (TxCall.claimRewards acct),
        Step.awaitReceipt (TxCall.claimRewards acct)],
       .ok) := by
  unfold ClaimRewards.main
  simp [h, h2]

/-! ## Derived trace facts shared between claims -/

/-- Triple creation never awaits an approval receipt on any control path. -/
theorem CreateTriple.triple_no_approve_await (c : Chain) (acct : Address) :
    ∀ s ∈ (CreateTriple.main c acct).1, s.isApproveAwait = false := by
  intro s hs
  by_cases h1 : c.isTermCreated CreateTriple.SUBJECT_ID = true
  · by_cases h2 : c.isTermCreated CreateTriple.PREDICATE_ID = true
    · by_cases h3 : c.isTermCreated CreateTriple.OBJECT_ID = true
      · by_cases hex : c.isTermCreated (c.calculateTripleId
            CreateTriple.SUBJECT_ID CreateTriple.PREDICATE_ID
            CreateTriple.OBJECT_ID) = true
        · rw [CreateTriple.main_triple_already_exists c acct h1 h2 h3 hex] at hs
          simp only [List.mem_cons, List.not_mem_nil, or_false] at hs
          rcases hs with rfl | rfl | rfl | rfl | rfl <;> rfl
        · rw [CreateTriple.main_creates c acct h1 h2 h3
            (by simpa using hex)] at hs
          simp only [List.mem_cons, List.not_mem_nil, or_false] at hs
          rcases hs with rfl | rfl | rfl | rfl | rfl | rfl | rfl | rfl | rfl <;>
            rfl
      · rw [CreateTriple.main_missing_object c acct h1 h2
          (by simpa using h3)] at hs
        simp only [List.mem_cons, List.not_mem_nil, or_false] at hs
        rcases hs with rfl | rfl | rfl <;> rfl
    · rw [CreateTriple.main_missing_predicate c acct h1
        (by simpa using h2)] at hs
      simp only [List.mem_cons, List.not_mem_nil, or_false] at hs
      rcases hs with rfl | rfl <;> rfl
  · rw [CreateTriple.main_missing_subject c acct (by simpa using h1)] at hs
    simp only [List.mem_cons, List.not_mem_nil, or_false] at hs
    subst hs
    rfl

/-- The deposit script never awaits an approval receipt on any control
path. -/
theorem DepositVault.deposit_no_approve_await (c : Chain) (acct : Address) :
    ∀ s ∈ (DepositVault.main c acct).1, s.isApproveAwait = false := by
  intro s hs
  by_cases h : c.isTermCreated DepositVault.TERM_ID = true
  · rw [DepositVault.main_deposits c acct h] at hs
    simp only [List.mem_cons, List.not_mem_nil, or_false] at hs
    rcases hs with rfl | rfl | rfl | rfl | rfl | rfl | rfl <;> rfl
  · rw [DepositVault.main_vault_missing c acct (by simpa using h)] at hs
    simp only [List.mem_cons, List.not_mem_nil, or_false] at hs
    subst hs
    rfl

/-- The already-exists path of atom creation submits nothing. -/
theorem CreateAtom.atom_no_submit_already_exists (c : Chain) (acct : Address)
    (hconn : c.connected = true)
    (hbal : ¬ c.balanceOf acct < CreateAtom.DEPOSIT_AMOUNT + c.atomCost)
    (hex : c.isTermCreated (c.calculateAtomId CreateAtom.ATOM_DATA) = true) :
    ∀ s ∈ (CreateAtom.main c acct).1, s.isSubmit = false := by
  intro s hs
  rw [CreateAtom.main_atom_already_exists c acct hconn hbal hex] at hs
  simp only [List.mem_cons, List.not_mem_nil, or_false] at hs
  rcases hs with rfl | rfl | rfl | rfl | rfl <;> rfl

/-- The already-exists path of triple creation submits nothing. -/
theorem CreateTriple.triple_no_submit_already_exists (c : Chain) (acct : Address)
    (h1 : c.isTermCreated CreateTriple.SUBJECT_ID = true)
    (h2 : c.isTermCreated CreateTriple.PREDICATE_ID = true)
    (h3 : c.isTermCreated CreateTriple.OBJECT_ID = true)
    (hex : c.isTermCreated (c.calculateTripleId CreateTriple.SUBJECT_ID
      CreateTriple.PREDICATE_ID CreateTriple.OBJECT_ID) = true) :
    ∀ s ∈ (CreateTriple.main c acct).1, s.isSubmit = false := by
  intro s hs
  rw [CreateTriple.main_triple_already_exists c acct h1 h2 h3 hex] at hs
  simp only [List.mem_cons, List.not_mem_nil, or_false] at hs
  rcases hs with rfl | rfl | rfl | rfl | rfl <;> rfl

/-- The zero-share path of redemption submits nothing. -/
theorem RedeemShares.no_submit_zero_shares (c : Chain) (acct : Address)
    (h : c.getShares acct RedeemShares.TERM_ID RedeemShares.CURVE_ID = 0) :
    ∀ s ∈ (RedeemShares.main c acct).1, s.isSubmit = false := by
  intro s hs
  rw [RedeemShares.main_no_shares c acct h] at hs
  simp only [List.mem_cons, List.not_mem_nil, or_false] at hs
  subst hs
  rfl

/-- The zero-bonded-balance path of the claim script submits nothing. -/
theorem ClaimRewards.no_submit_no_bonded (c : Chain) (acct : Address)
    (h : (c.getUserInfo acct).bondedBalance = 0) :
    ∀ s ∈ (ClaimRewards.main c acct).1, s.isSubmit = false := by
  intro s hs
  rw [ClaimRewards.main_no_bonded c acct h] at hs
  simp only [List.mem_cons, List.not_mem_nil, or_false] at hs
  rcases hs with rfl | rfl | rfl <;> rfl

/-- The zero-claimable path of the claim script submits nothing. -/
theorem ClaimRewards.no_submit_no_claimable (c : Chain) (acct : Address)
    (h : (c.getUserInfo acct).bondedBalance ≠ 0)
    (h2 : c.getClaimable acct = 0) :
    ∀ s ∈ (ClaimRewards.main c acct).1, s.isSubmit = false := by
  intro s hs
  rw [ClaimRewards.main_no_claimable c acct h h2] at hs
  simp only [List.mem_cons, List.not_mem_nil, or_false] at hs
  rcases hs with rfl | rfl | rfl | rfl <;> rfl

/-- `exitCode` is 1 exactly on error outcomes. -/
theorem exitCode_eq_one (o : Outcome) : exitCode o = 1 ↔ o.isError = true := by
  unfold exitCode
  split <;> simp_all

/-! ## Concrete chains used in witnesses and counterexamples -/

/-- A chain where every term exists, balances and allowances are ample, and
the claim script finds nonzero bonded balance and claimable rewards. -/
def richChain : Chain where
  connected := true
  ethBalance := fun _ => weiPerEther
  balanceOf := fun _ => 100 * weiPerEther
  allowance := fun _ _ => 1000 * weiPerEther
  atomCost := weiPerEther / 10
  tripleCost := weiPerEther / 10
  calculateAtomId := fun _ => 42
  calculateTripleId := fun _ _ _ => 99
  isTermCreated := fun _ => true
  getShares := fun _ _ _ => 7 * weiPerEther
  previewDeposit := fun _ _ assets => (assets, assets)
  previewRedeem := fun _ _ shares => (shares, shares)
  currentEpoch := 5
  previousEpoch := 4
  getUserInfo := fun _ =>
    ⟨0, 3 * weiPerEther, 4 * weiPerEther, 0, 0, 2 * weiPerEther⟩
  getClaimable := fun _ => weiPerEther
  getUserApy := fun _ => (500, 1000)

/-- Like `richChain` but the triple (id 99) is not yet created while all
atoms are, so the triple script reaches its approval and creation calls. -/
def tripleReadyChain : Chain :=
  { richChain with isTermCreated := fun id => id != 99 }

/-- Like `richChain` but the atom (id 42) is not yet created and the
delegated allowance is zero, so the atom script takes its approval branch. -/
def freshAtomChain : Chain :=
  { richChain with
      isTermCreated := fun id => id != 42
      allowance := fun _ _ => 0 }

/-- Like `richChain` but the account holds no vault shares. -/
def zeroShareChain : Chain :=
  { richChain with getShares := fun _ _ _ => 0 }

/-- Like `richChain` but the predicate atom (id 2) does not exist. -/
def missingPredicateChain : Chain :=
  { richChain with isTermCreated := fun id => id == 1 }

/-- Like `richChain` but the account has no bonded balance. -/
def noBondedChain : Chain :=
  { richChain with getUserInfo := fun _ => ⟨0, 0, 0, 0, 0, 0⟩ }

/-- The spec's worked example: 100 bps of slippage on an expected 1000
floors to 990. -/
theorem slippageBound_spec_example : slippageBound 1000 100 = 990 := by decide

/-- An approval submitted by the atom script is pinned down: it is for the
MultiVault spender and exactly the required total, and occurs only on the
path where the current allowance is below that total. -/
theorem CreateAtom.atom_approve_mem_characterization (c : Chain) (acct : Address)
    (spender : Address) (amt : Amount)
    (hmem : Step.submitTx (TxCall.approve spender amt) ∈
      (CreateAtom.main c acct).1) :
    spender = MULTIVAULT_ADDRESS ∧
      amt = CreateAtom.DEPOSIT_AMOUNT + c.atomCost ∧
      c.connected = true ∧
      ¬ c.balanceOf acct < CreateAtom.DEPOSIT_AMOUNT + c.atomCost ∧
      c.isTermCreated (c.calculateAtomId CreateAtom.ATOM_DATA) = false ∧
      c.allowance acct MULTIVAULT_ADDRESS <
        CreateAtom.DEPOSIT_AMOUNT + c.atomCost := by
  by_cases hconn : c.connected = true
  · by_cases hbal : c.balanceOf acct < CreateAtom.DEPOSIT_AMOUNT + c.atomCost
    · rw [CreateAtom.main_insufficient_balance c acct hconn hbal] at hmem
      simp at hmem
    · by_cases hex : c.isTermCreated
        (c.calculateAtomId CreateAtom.ATOM_DATA) = true
      · rw [CreateAtom.main_atom_already_exists c acct hconn hbal hex] at hmem
        simp at hmem
      · have hex' : c.isTermCreated
            (c.calculateAtomId CreateAtom.ATOM_DATA) = false := by
          simpa using hex
        by_cases hlow : c.allowance acct MULTIVAULT_ADDRESS <
          CreateAtom.DEPOSIT_AMOUNT + c.atomCost
        · rw [CreateAtom.main_approves c acct hconn hbal hex' hlow] at hmem
          simp at hmem
          exact ⟨hmem.1, hmem.2, hconn, hbal, hex', hlow⟩
        · rw [CreateAtom.main_skips_approval c acct hconn hbal hex' hlow]
            at hmem
          simp at hmem
  · rw [CreateAtom.main_not_connected c acct (by simpa using hconn)] at hmem
    simp at hmem

/-- An approval submitted by the triple script is for the MultiVault
spender and exactly deposit + triple cost, on the path where all referenced
atoms exist and the triple does not yet. -/
theorem CreateTriple.triple_approve_mem_characterization (c : Chain)
    (acct : Address) (spender : Address) (amt : Amount)
    (hmem : Step.submitTx (TxCall.approve spender amt) ∈
      (CreateTriple.main c acct).1) :
    spender = MULTIVAULT_ADDRESS ∧
      amt = CreateTriple.DEPOSIT_AMOUNT + c.tripleCost ∧
      c.isTermCreated CreateTriple.SUBJECT_ID = true ∧
      c.isTermCreated CreateTriple.PREDICATE_ID = true ∧
      c.isTermCreated CreateTriple.OBJECT_ID = true ∧
      c.isTermCreated (c.calculateTripleId CreateTriple.SUBJECT_ID
        CreateTriple.PREDICATE_ID CreateTriple.OBJECT_ID) = false := by
  by_cases h1 : c.isTermCreated CreateTriple.SUBJECT_ID = true
  · by_cases h2 : c.isTermCreated CreateTriple.PREDICATE_ID = true
    · by_cases h3 : c.isTermCreated CreateTriple.OBJECT_ID = true
      · by_cases hex : c.isTermCreated (c.calculateTripleId
            CreateTriple.SUBJECT_ID CreateTriple.PREDICATE_ID
            CreateTriple.OBJECT_ID) = true
        · rw [CreateTriple.main_triple_already_exists c acct h1 h2 h3 hex] at hmem
          simp at hmem
        · have hex' : c.isTermCreated (c.calculateTripleId
              CreateTriple.SUBJECT_ID CreateTriple.PREDICATE_ID
              CreateTriple.OBJECT_ID) = false := by simpa using hex
          rw [CreateTriple.main_creates c acct h1 h2 h3 hex'] at hmem
          simp at hmem
          exact ⟨hmem.1, hmem.2, h1, h2, h3, hex'⟩
      · rw [CreateTriple.main_missing_object c acct h1 h2
          (by simpa using h3)] at hmem
        simp at hmem
    · rw [CreateTriple.main_missing_predicate c acct h1
        (by simpa using h2)] at hmem
      simp at hmem
  · rw [CreateTriple.main_missing_subject c acct (by simpa using h1)] at hmem
    simp at hmem

/-- An approval submitted by the deposit script is for the MultiVault
spender and exactly the deposit amount, on the path where the vault
exists. -/
theorem DepositVault.deposit_approve_mem_characterization (c : Chain)
    (acct : Address) (spender : Address) (amt : Amount)
    (hmem : Step.submitTx (TxCall.approve spender amt) ∈
      (DepositVault.main c acct).1) :
    spender = MULTIVAULT_ADDRESS ∧ amt = DepositVault.DEPOSIT_AMOUNT ∧
      c.isTermCreated DepositVault.TERM_ID = true := by
  by_cases h : c.isTermCreated DepositVault.TERM_ID = true
  · rw [DepositVault.main_deposits c acct h] at hmem
    simp at hmem
    exact ⟨hmem.1, hmem.2, h⟩
  · rw [DepositVault.main_vault_missing c acct (by simpa using h)] at hmem
    simp at hmem

/-! ## Claims -/

/-- C3 (counterexample): the claim that for every non-negative expected
amount and slippageBps the bound satisfies `bound <= expected` and
`bound == expected` exactly when `slippageBps == 0` is false: at
expected = 0 and slippageBps = 1 the bound equals the expected amount
although slippageBps is nonzero. -/
theorem C3_counterexample :
    ¬ ∀ e b : Int, 0 ≤ e → 0 ≤ b →
        (slippageBound e b ≤ e ∧ (slippageBound e b = e ↔ b = 0)) := by
  intro h
  have h1 := (h 0 1 le_rfl (by norm_num)).2.mp (slippageBound_zero_expected 1)
  norm_num at h1

/-- C3 (amended): for every non-negative expected amount and slippageBps,
the floor-division slippage bound satisfies `bound <= expected`; it equals
the expected amount whenever slippageBps is 0, and in general equals it
exactly when slippageBps is 0 or the expected amount is 0. -/
theorem C3_slippage_floor (e b : Int) (he : 0 ≤ e) (hb : 0 ≤ b) :
    slippageBound e b ≤ e ∧ (b = 0 → slippageBound e b = e) ∧
      (slippageBound e b = e ↔ b = 0 ∨ e = 0) := by
  refine ⟨slippageBound_le_aux e b he hb, ?_, ?_⟩
  · rintro rfl
    exact slippageBound_zero_bps e
  · constructor
    · intro heq
      by_contra hne
      push_neg at hne
      obtain ⟨hb0, he0⟩ := hne
      have hb1 : 1 ≤ b := by omega
      have he1 : 1 ≤ e := by omega
      exact absurd heq (ne_of_lt (slippageBound_lt e b he1 hb1))
    · rintro (rfl | rfl)
      · exact slippageBound_zero_bps e
      · exact slippageBound_zero_expected b

/-- Witness for C3 at expected = 1000, slippageBps = 100. -/
theorem C3_slippage_floor_witness :
    (0:Int) ≤ 1000 ∧ (0:Int) ≤ 100 ∧
      (slippageBound 1000 100 ≤ 1000 ∧
        ((100:Int) = 0 → slippageBound 1000 100 = 1000) ∧
        (slippageBound 1000 100 = 1000 ↔ (100:Int) = 0 ∨ (1000:Int) = 0)) :=
  ⟨by norm_num, by norm_num,
    C3_slippage_floor 1000 100 (by norm_num) (by norm_num)⟩

/-- C4: redemption clamps the redeemed shares to
min(sharesRequested, currentShares), so a submitted redeem call never
requests more than the account owns; with zero current shares the script
returns after the single balance read, submitting nothing and performing
no preview. -/
theorem C4_redeem_clamp (c : Chain) (acct : Address) :
    (c.getShares acct RedeemShares.TERM_ID RedeemShares.CURVE_ID = 0 →
      RedeemShares.main c acct =
        ([Step.readGetShares acct RedeemShares.TERM_ID RedeemShares.CURVE_ID],
         .noShares)) ∧
    (∀ r t cv sh ma, Step.submitTx (TxCall.redeem r t cv sh ma) ∈
        (RedeemShares.main c acct).1 →
      sh = min RedeemShares.SHARES_TO_REDEEM
          (c.getShares acct RedeemShares.TERM_ID RedeemShares.CURVE_ID) ∧
        sh ≤ c.getShares acct RedeemShares.TERM_ID RedeemShares.CURVE_ID) := by
  constructor
  · exact RedeemShares.main_no_shares c acct
  · intro r t cv sh ma hmem
    by_cases h : c.getShares acct RedeemShares.TERM_ID RedeemShares.CURVE_ID = 0
    · rw [RedeemShares.main_no_shares c acct h] at hmem
      simp at hmem
    · rw [RedeemShares.main_redeems c acct h] at hmem
      simp only [List.mem_cons, List.not_mem_nil, or_false,
        Step.submitTx.injEq, TxCall.redeem.injEq, reduceCtorEq,
        false_or, or_false] at hmem
      obtain ⟨-, -, -, hsh, -⟩ := hmem
      subst hsh
      exact ⟨rfl, min_le_right _ _⟩

/-- Witness for C4 on a chain holding no shares. -/
theorem C4_redeem_clamp_witness :
    RedeemShares.main zeroShareChain "0xAb" =
      ([Step.readGetShares "0xAb" RedeemShares.TERM_ID RedeemShares.CURVE_ID],
       .noShares) :=
  (C4_redeem_clamp zeroShareChain "0xAb").1 rfl

/-- C5: when any referenced id does not exist, the triple script stops with
the ValidationError-class outcome `errMissingAtom` naming the first missing
id, and its whole trace is existence reads: the triple id is never derived
and no transaction is built or submitted. -/
theorem C5_triple_validation (c : Chain) (acct : Address)
    (h : (c.isTermCreated CreateTriple.SUBJECT_ID &&
        c.isTermCreated CreateTriple.PREDICATE_ID &&
        c.isTermCreated CreateTriple.OBJECT_ID) = false) :
    ∃ m, m ∈ [CreateTriple.SUBJECT_ID, CreateTriple.PREDICATE_ID,
        CreateTriple.OBJECT_ID] ∧
      c.isTermCreated m = false ∧
      (CreateTriple.main c acct).2 = .errMissingAtom m ∧
      ∀ s ∈ (CreateTriple.main c acct).1, ∃ id,
        s = Step.readIsTermCreated id := by
  by_cases h1 : c.isTermCreated CreateTriple.SUBJECT_ID = true
  · by_cases h2 : c.isTermCreated CreateTriple.PREDICATE_ID = true
    · by_cases h3 : c.isTermCreated CreateTriple.OBJECT_ID = true
      · rw [h1, h2, h3] at h
        simp at h
      · have h3' : c.isTermCreated CreateTriple.OBJECT_ID = false := by
          simpa using h3
        refine ⟨CreateTriple.OBJECT_ID, by simp, h3', ?_, ?_⟩
        · rw [CreateTriple.main_missing_object c acct h1 h2 h3']
        · intro s hs
          rw [CreateTriple.main_missing_object c acct h1 h2 h3'] at hs
          simp only [List.mem_cons, List.not_mem_nil, or_false] at hs
          rcases hs with rfl | rfl | rfl <;> exact ⟨_, rfl⟩
    · have h2' : c.isTermCreated CreateTriple.PREDICATE_ID = false := by
        simpa using h2
      refine ⟨CreateTriple.PREDICATE_ID, by simp, h2', ?_, ?_⟩
      · rw [CreateTriple.main_missing_predicate c acct h1 h2']
      · intro s hs
        rw [CreateTriple.main_missing_predicate c acct h1 h2'] at hs
        simp only [List.mem_cons, List.not_mem_nil, or_false] at hs
        rcases hs with rfl | rfl <;> exact ⟨_, rfl⟩
  · have h1' : c.isTermCreated CreateTriple.SUBJECT_ID = false := by
      simpa using h1
    refine ⟨CreateTriple.SUBJECT_ID, by simp, h1', ?_, ?_⟩
    · rw [CreateTriple.main_missing_subject c acct h1']
    · intro s hs
      rw [CreateTriple.main_missing_subject c acct h1'] at hs
      simp only [List.mem_cons, List.not_mem_nil, or_false] at hs
      subst hs
      exact ⟨_, rfl⟩

/-- Witness for C5 on a chain where only the subject atom exists. -/
theorem C5_triple_validation_witness :
    ∃ m, m ∈ [CreateTriple.SUBJECT_ID, CreateTriple.PREDICATE_ID,
        CreateTriple.OBJECT_ID] ∧
      missingPredicateChain.isTermCreated m = false ∧
      (CreateTriple.main missingPredicateChain "0xAb").2 =
        .errMissingAtom m ∧
      ∀ s ∈ (CreateTriple.main missingPredicateChain "0xAb").1, ∃ id,
        s = Step.readIsTermCreated id :=
  C5_triple_validation missingPredicateChain "0xAb" (by decide)

/-- C6: when the derived id is already created, atom and triple creation
return the already-exists outcome, which is not an error, after a trace
that submits no transaction — retries are idempotent. -/
theorem C6_already_exists_noop (c : Chain) (acct : Address) :
    (c.connected = true →
      ¬ c.balanceOf acct < CreateAtom.DEPOSIT_AMOUNT + c.atomCost →
      c.isTermCreated (c.calculateAtomId CreateAtom.ATOM_DATA) = true →
      (CreateAtom.main c acct).2 =
          .alreadyExists (c.calculateAtomId CreateAtom.ATOM_DATA) ∧
        (CreateAtom.main c acct).2.isError = false ∧
        ∀ s ∈ (CreateAtom.main c acct).1, s.isSubmit = false) ∧
    (c.isTermCreated CreateTriple.SUBJECT_ID = true →
      c.isTermCreated CreateTriple.PREDICATE_ID = true →
      c.isTermCreated CreateTriple.OBJECT_ID = true →
      c.isTermCreated (c.calculateTripleId CreateTriple.SUBJECT_ID
        CreateTriple.PREDICATE_ID CreateTriple.OBJECT_ID) = true →
      (CreateTriple.main c acct).2 =
          .alreadyExists (c.calculateTripleId CreateTriple.SUBJECT_ID
            CreateTriple.PREDICATE_ID CreateTriple.OBJECT_ID) ∧
        (CreateTriple.main c acct).2.isError = false ∧
        ∀ s ∈ (CreateTriple.main c acct).1, s.isSubmit = false) := by
  constructor
  · intro hconn hbal hex
    refine ⟨?_, ?_, CreateAtom.atom_no_submit_already_exists c acct hconn hbal hex⟩
    · rw [CreateAtom.main_atom_already_exists c acct hconn hbal hex]
    · rw [CreateAtom.main_atom_already_exists c acct hconn hbal hex]
      rfl
  · intro h1 h2 h3 hex
    refine ⟨?_, ?_,
      CreateTriple.triple_no_submit_already_exists c acct h1 h2 h3 hex⟩
    · rw [CreateTriple.main_triple_already_exists c acct h1 h2 h3 hex]
    · rw [CreateTriple.main_triple_already_exists c acct h1 h2 h3 hex]
      rfl

/-- Witness for C6 on a chain where every term already exists. -/
theorem C6_already_exists_noop_witness :
    (CreateAtom.main richChain "0xAb").2 =
        .alreadyExists (richChain.calculateAtomId CreateAtom.ATOM_DATA) ∧
      (CreateAtom.main richChain "0xAb").2.isError = false ∧
      ∀ s ∈ (CreateAtom.main richChain "0xAb").1, s.isSubmit = false :=
  (C6_already_exists_noop richChain "0xAb").1 rfl (by decide) rfl

/-- C7: the claim script short-circuits, submitting nothing, whenever the
bonded balance is zero or the claimable amount is zero; a claim transaction
is submitted exactly when both are nonzero. -/
theorem C7_claim_short_circuit (c : Chain) (acct : Address) :
    ((c.getUserInfo acct).bondedBalance = 0 →
      (ClaimRewards.main c acct).2 = .noBondedBalance ∧
        ∀ s ∈ (ClaimRewards.main c acct).1, s.isSubmit = false) ∧
    ((c.getUserInfo acct).bondedBalance ≠ 0 → c.getClaimable acct = 0 →
      (ClaimRewards.main c acct).2 = .noClaimable ∧
        ∀ s ∈ (ClaimRewards.main c acct).1, s.isSubmit = false) ∧
    ((∃ r, Step.submitTx (TxCall.claimRewards r) ∈
        (ClaimRewards.main c acct).1) ↔
      (c.getUserInfo acct).bondedBalance ≠ 0 ∧ c.getClaimable acct ≠ 0) := by
  refine ⟨?_, ?_, ?_⟩
  · intro h
    exact ⟨by rw [ClaimRewards.main_no_bonded c acct h],
      ClaimRewards.no_submit_no_bonded c acct h⟩
  · intro h h2
    exact ⟨by rw [ClaimRewards.main_no_claimable c acct h h2],
      ClaimRewards.no_submit_no_claimable c acct h h2⟩
  · constructor
    · rintro ⟨r, hmem⟩
      by_cases h : (c.getUserInfo acct).bondedBalance = 0
      · have hfalse := ClaimRewards.no_submit_no_bonded c acct h _ hmem
        simp [Step.isSubmit] at hfalse
      · by_cases h2 : c.getClaimable acct = 0
        · have hfalse := ClaimRewards.no_submit_no_claimable c acct h h2 _ hmem
          simp [Step.isSubmit] at hfalse
        · exact ⟨h, h2⟩
    · rintro ⟨h, h2⟩
      exact ⟨acct, by rw [ClaimRewards.main_claims c acct h h2]; simp⟩

/-- Witness for C7 on a chain with zero bonded balance. -/
theorem C7_claim_short_circuit_witness :
    (ClaimRewards.main noBondedChain "0xAb").2 = .noBondedBalance ∧
      ∀ s ∈ (ClaimRewards.main noBondedChain "0xAb").1, s.isSubmit = false :=
  (C7_claim_short_circuit noBondedChain "0xAb").1 rfl

/-- C9: any claimRewards transaction submitted by the claim script carries
the script's own account as its recipient. -/
theorem C9_claim_recipient (c : Chain) (acct : Address) (r : Address)
    (h : Step.submitTx (TxCall.claimRewards r) ∈
      (ClaimRewards.main c acct).1) :
    r = acct := by
  by_cases h1 : (c.getUserInfo acct).bondedBalance = 0
  · have hfalse := ClaimRewards.no_submit_no_bonded c acct h1 _ h
    simp [Step.isSubmit] at hfalse
  · by_cases h2 : c.getClaimable acct = 0
    · have hfalse := ClaimRewards.no_submit_no_claimable c acct h1 h2 _ h
      simp [Step.isSubmit] at hfalse
    · rw [ClaimRewards.main_claims c acct h1 h2] at h
      simpa using h

/-- Witness for C9 on a chain where the claim transaction is submitted. -/
theorem C9_claim_recipient_witness : ("0xAb" : Address) = "0xAb" :=
  C9_claim_recipient richChain "0xAb" "0xAb"
    (by rw [ClaimRewards.main_claims richChain "0xAb" (by decide) (by decide)]
        simp)

/-- C1 (counterexample): on the triple script with the delegated allowance
already far above the required total, an approval transaction is still
submitted — the allowance short-circuit exists only in the atom script. -/
theorem C1_counterexample :
    CreateTriple.DEPOSIT_AMOUNT + tripleReadyChain.tripleCost ≤
        tripleReadyChain.allowance "0xAb" MULTIVAULT_ADDRESS ∧
      Step.submitTx (TxCall.approve MULTIVAULT_ADDRESS
          (CreateTriple.DEPOSIT_AMOUNT + tripleReadyChain.tripleCost)) ∈
        (CreateTriple.main tripleReadyChain "0xAb").1 := by
  constructor
  · decide
  · rw [CreateTriple.main_creates tripleReadyChain "0xAb" rfl rfl rfl rfl]
    simp

/-- C1 (amended): atom creation reads the allowance and submits an
approval — for exactly the required total — only when the current
allowance is below that total; triple creation and deposit never read the
allowance and submit an approval unconditionally whenever they reach their
spend, always for exactly the required amount, never unlimited. -/
theorem C1_allowance_policy (c : Chain) (acct : Address) :
    (∀ spender amt, Step.submitTx (TxCall.approve spender amt) ∈
        (CreateAtom.main c acct).1 →
      spender = MULTIVAULT_ADDRESS ∧
        amt = CreateAtom.DEPOSIT_AMOUNT + c.atomCost ∧
        c.allowance acct MULTIVAULT_ADDRESS <
          CreateAtom.DEPOSIT_AMOUNT + c.atomCost) ∧
    (c.connected = true →
      ¬ c.balanceOf acct < CreateAtom.DEPOSIT_AMOUNT + c.atomCost →
      c.isTermCreated (c.calculateAtomId CreateAtom.ATOM_DATA) = false →
      c.allowance acct MULTIVAULT_ADDRESS <
        CreateAtom.DEPOSIT_AMOUNT + c.atomCost →
      Step.submitTx (TxCall.approve MULTIVAULT_ADDRESS
        (CreateAtom.DEPOSIT_AMOUNT + c.atomCost)) ∈
        (CreateAtom.main c acct).1) ∧
    (∀ spender amt, Step.submitTx (TxCall.approve spender amt) ∈
        (CreateTriple.main c acct).1 →
      spender = MULTIVAULT_ADDRESS ∧
        amt = CreateTriple.DEPOSIT_AMOUNT + c.tripleCost) ∧
    (c.isTermCreated CreateTriple.SUBJECT_ID = true →
      c.isTermCreated CreateTriple.PREDICATE_ID = true →
      c.isTermCreated CreateTriple.OBJECT_ID = true →
      c.isTermCreated (c.calculateTripleId CreateTriple.SUBJECT_ID
        CreateTriple.PREDICATE_ID CreateTriple.OBJECT_ID) = false →
      Step.submitTx (TxCall.approve MULTIVAULT_ADDRESS
        (CreateTriple.DEPOSIT_AMOUNT + c.tripleCost)) ∈
        (CreateTriple.main c acct).1) ∧
    (∀ spender amt, Step.submitTx (TxCall.approve spender amt) ∈
        (DepositVault.main c acct).1 →
      spender = MULTIVAULT_ADDRESS ∧ amt = DepositVault.DEPOSIT_AMOUNT) ∧
    (c.isTermCreated DepositVault.TERM_ID = true →
      Step.submitTx (TxCall.approve MULTIVAULT_ADDRESS
        DepositVault.DEPOSIT_AMOUNT) ∈ (DepositVault.main c acct).1) := by
  refine ⟨?_, ?_, ?_, ?_, ?_, ?_⟩
  · intro spender amt hmem
    obtain ⟨e1, e2, -, -, -, hlow⟩ :=
      CreateAtom.atom_approve_mem_characterization c acct spender amt hmem
    exact ⟨e1, e2, hlow⟩
  · intro hconn hbal hex hlow
    rw [CreateAtom.main_approves c acct hconn hbal hex hlow]
    simp
  · intro spender amt hmem
    obtain ⟨e1, e2, -⟩ :=
      CreateTriple.triple_approve_mem_characterization c acct spender amt hmem
    exact ⟨e1, e2⟩
  · intro h1 h2 h3 hex
    rw [CreateTriple.main_creates c acct h1 h2 h3 hex]
    simp
  · intro spender amt hmem
    obtain ⟨e1, e2, -⟩ :=
      DepositVault.deposit_approve_mem_characterization c acct spender amt hmem
    exact ⟨e1, e2⟩
  · intro hvault
    rw [DepositVault.main_deposits c acct hvault]
    simp

/-- Witness for C1 on a chain where the atom script must raise the
allowance. -/
theorem C1_allowance_policy_witness :
    Step.submitTx (TxCall.approve MULTIVAULT_ADDRESS
        (CreateAtom.DEPOSIT_AMOUNT + freshAtomChain.atomCost)) ∈
      (CreateAtom.main freshAtomChain "0xAb").1 :=
  (C1_allowance_policy freshAtomChain "0xAb").2.1 rfl (by decide) rfl
    (by decide)

/-- C2 (counterexample): the triple script submits an approval and then the
dependent creation transaction while its whole trace contains no wait for
the approval's receipt — a spend is attempted before the approval is
confirmed. -/
theorem C2_counterexample :
    Step.submitTx (TxCall.approve MULTIVAULT_ADDRESS
        (CreateTriple.DEPOSIT_AMOUNT + tripleReadyChain.tripleCost)) ∈
        (CreateTriple.main tripleReadyChain "0xAb").1 ∧
      Step.submitTx (TxCall.createTriples [CreateTriple.SUBJECT_ID]
          [CreateTriple.PREDICATE_ID] [CreateTriple.OBJECT_ID]
          [CreateTriple.DEPOSIT_AMOUNT]) ∈
        (CreateTriple.main tripleReadyChain "0xAb").1 ∧
      ∀ s ∈ (CreateTriple.main tripleReadyChain "0xAb").1,
        s.isApproveAwait = false := by
  refine ⟨?_, ?_, CreateTriple.triple_no_approve_await tripleReadyChain "0xAb"⟩
  · rw [CreateTriple.main_creates tripleReadyChain "0xAb" rfl rfl rfl rfl]
    simp
  · rw [CreateTriple.main_creates tripleReadyChain "0xAb" rfl rfl rfl rfl]
    simp

/-- C2 (amended): only atom creation awaits the approval's confirmation
before its spend — when it submits an approval, the receipt wait
immediately follows and precedes the creation submit; the triple and
deposit scripts never await an approval receipt on any path. -/
theorem C2_approval_confirmation (c : Chain) (acct : Address) :
    (∀ amt, Step.submitTx (TxCall.approve MULTIVAULT_ADDRESS amt) ∈
        (CreateAtom.main c acct).1 →
      ∃ pre, (CreateAtom.main c acct).1 =
        pre ++ [Step.submitTx (TxCall.approve MULTIVAULT_ADDRESS amt),
          Step.awaitReceipt (TxCall.approve MULTIVAULT_ADDRESS amt),
          Step.submitTx (TxCall.createAtoms [CreateAtom.ATOM_DATA]
            [CreateAtom.DEPOSIT_AMOUNT]),
          Step.awaitReceipt (TxCall.createAtoms [CreateAtom.ATOM_DATA]
            [CreateAtom.DEPOSIT_AMOUNT])]) ∧
    (∀ s ∈ (CreateTriple.main c acct).1, s.isApproveAwait = false) ∧
    (∀ s ∈ (DepositVault.main c acct).1, s.isApproveAwait = false) := by
  refine ⟨?_, CreateTriple.triple_no_approve_await c acct,
    DepositVault.deposit_no_approve_await c acct⟩
  intro amt hmem
  obtain ⟨-, hamt, hconn, hbal, hex, hlow⟩ :=
    CreateAtom.atom_approve_mem_characterization c acct MULTIVAULT_ADDRESS amt hmem
  subst hamt
  refine ⟨[Step.readEthBalance acct, Step.readBalanceOf acct,
    Step.readAtomCost, Step.readCalculateAtomId CreateAtom.ATOM_DATA,
    Step.readIsTermCreated (c.calculateAtomId CreateAtom.ATOM_DATA),
    Step.readAllowance acct MULTIVAULT_ADDRESS], ?_⟩
  rw [CreateAtom.main_approves c acct hconn hbal hex hlow]
  rfl

/-- Witness for C2 on a chain where the atom script raises the
allowance. -/
theorem C2_approval_confirmation_witness :
    ∃ pre, (CreateAtom.main freshAtomChain "0xAb").1 =
      pre ++ [Step.submitTx (TxCall.approve MULTIVAULT_ADDRESS
          (CreateAtom.DEPOSIT_AMOUNT + freshAtomChain.atomCost)),
        Step.awaitReceipt (TxCall.approve MULTIVAULT_ADDRESS
          (CreateAtom.DEPOSIT_AMOUNT + freshAtomChain.atomCost)),
        Step.submitTx (TxCall.createAtoms [CreateAtom.ATOM_DATA]
          [CreateAtom.DEPOSIT_AMOUNT]),
        Step.awaitReceipt (TxCall.createAtoms [CreateAtom.ATOM_DATA]
          [CreateAtom.DEPOSIT_AMOUNT])] :=
  (C2_approval_confirmation freshAtomChain "0xAb").1 _
    (by rw [CreateAtom.main_approves freshAtomChain "0xAb" rfl (by decide)
          rfl (by decide)]
        simp)

/-- C8 (counterexample): the user-filtered mode is not the historical mode
plus a topic — it omits the TripleCreated kind entirely: historical issues
four per-kind queries, the user mode only three. -/
theorem C8_counterexample :
    ((EventIndexer.query_historical_events 12000 13000).map Prod.fst =
      [.atomCreated, .tripleCreated, .deposited, .redeemed]) ∧
    ((EventIndexer.query_user_events "0xAb" 12000 13000).map Prod.fst =
      [.atomCreated, .deposited, .redeemed]) ∧
    ¬ ∃ f, (EventIndexer.EventKind.tripleCreated, f) ∈
        EventIndexer.query_user_events "0xAb" 12000 13000 := by
  refine ⟨rfl, rfl, ?_⟩
  rintro ⟨f, hf⟩
  simp [EventIndexer.query_user_events] at hf

/-- C8 (amended): every query the user-filtered mode issues is the
historical query for the same kind over the same range and address with
the account's zero-padded topic appended as an extra indexed filter, but
only the AtomCreated, Deposited and Redeemed kinds are queried —
TripleCreated is omitted; zfill pads the address hex to 64 characters. -/
theorem C8_user_filter (u : String) (fb tb : Nat) :
    ((EventIndexer.query_user_events u fb tb).map Prod.fst =
      [.atomCreated, .deposited, .redeemed]) ∧
    (∀ kf ∈ EventIndexer.query_user_events u fb tb,
      ∃ f, (kf.1, f) ∈ EventIndexer.query_historical_events fb tb ∧
        kf.2.fromBlock = f.fromBlock ∧ kf.2.toBlock = f.toBlock ∧
        kf.2.address = f.address ∧
        kf.2.topics = f.topics ++
          [EventIndexer.Topic.user (EventIndexer.userTopicOf u)]) ∧
    (∀ s : String, s.length ≤ 64 →
      (EventIndexer.zfill s 64).length = 64) := by
  refine ⟨rfl, ?_, ?_⟩
  · intro kf hkf
    simp only [EventIndexer.query_user_events, List.mem_cons,
      List.not_mem_nil, or_false] at hkf
    rcases hkf with rfl | rfl | rfl
    · exact ⟨⟨fb, tb, MULTIVAULT_ADDRESS, [.sig .atomCreated]⟩,
        by simp [EventIndexer.query_historical_events], rfl, rfl, rfl, rfl⟩
    · exact ⟨⟨fb, tb, MULTIVAULT_ADDRESS, [.sig .deposited]⟩,
        by simp [EventIndexer.query_historical_events], rfl, rfl, rfl, rfl⟩
    · exact ⟨⟨fb, tb, MULTIVAULT_ADDRESS, [.sig .redeemed]⟩,
        by simp [EventIndexer.query_historical_events], rfl, rfl, rfl, rfl⟩
  · intro s hs
    simp [EventIndexer.zfill]
    omega

/-- Witness for C8: the padded topic of a short address reaches exactly 64
characters. -/
theorem C8_user_filter_witness :
    ("0xAb".drop 2).length ≤ 64 ∧
      (EventIndexer.zfill ("0xAb".drop 2) 64).length = 64 :=
  ⟨by decide, (C8_user_filter "0xAb" 12000 13000).2.2 _ (by decide)⟩

/-- C10: a script exits with status 1 exactly when its outcome embeds a
raised exception; the validation short-circuits — primitive already
exists, zero shares, zero bonded balance, zero claimable — exit with
status 0 after submitting nothing. -/
theorem C10_exit_status (c : Chain) (acct : Address) :
    (exitCode (CreateAtom.main c acct).2 = 1 ↔
      (CreateAtom.main c acct).2.isError = true) ∧
    (exitCode (CreateTriple.main c acct).2 = 1 ↔
      (CreateTriple.main c acct).2.isError = true) ∧
    (exitCode (DepositVault.main c acct).2 = 1 ↔
      (DepositVault.main c acct).2.isError = true) ∧
    (exitCode (RedeemShares.main c acct).2 = 1 ↔
      (RedeemShares.main c acct).2.isError = true) ∧
    (exitCode (ClaimRewards.main c acct).2 = 1 ↔
      (ClaimRewards.main c acct).2.isError = true) ∧
    (c.connected = true →
      ¬ c.balanceOf acct < CreateAtom.DEPOSIT_AMOUNT + c.atomCost →
      c.isTermCreated (c.calculateAtomId CreateAtom.ATOM_DATA) = true →
      exitCode (CreateAtom.main c acct).2 = 0 ∧
        ∀ s ∈ (CreateAtom.main c acct).1, s.isSubmit = false) ∧
    (c.getShares acct RedeemShares.TERM_ID RedeemShares.CURVE_ID = 0 →
      exitCode (RedeemShares.main c acct).2 = 0 ∧
        ∀ s ∈ (RedeemShares.main c acct).1, s.isSubmit = false) ∧
    ((c.getUserInfo acct).bondedBalance = 0 →
      exitCode (ClaimRewards.main c acct).2 = 0 ∧
        ∀ s ∈ (ClaimRewards.main c acct).1, s.isSubmit = false) ∧
    ((c.getUserInfo acct).bondedBalance ≠ 0 → c.getClaimable acct = 0 →
      exitCode (ClaimRewards.main c acct).2 = 0 ∧
        ∀ s ∈ (ClaimRewards.main c acct).1, s.isSubmit = false) := by
  refine ⟨exitCode_eq_one _, exitCode_eq_one _, exitCode_eq_one _,
    exitCode_eq_one _, exitCode_eq_one _, ?_, ?_, ?_, ?_⟩
  · intro hconn hbal hex
    refine ⟨?_, CreateAtom.atom_no_submit_already_exists c acct hconn hbal hex⟩
    rw [CreateAtom.main_atom_already_exists c acct hconn hbal hex]
    rfl
  · intro h
    refine ⟨?_, RedeemShares.no_submit_zero_shares c acct h⟩
    rw [RedeemShares.main_no_shares c acct h]
    rfl
  · intro h
    refine ⟨?_, ClaimRewards.no_submit_no_bonded c acct h⟩
    rw [ClaimRewards.main_no_bonded c acct h]
    rfl
  · intro h h2
    refine ⟨?_, ClaimRewards.no_submit_no_claimable c acct h h2⟩
    rw [ClaimRewards.main_no_claimable c acct h h2]
    rfl

/-- Witness for C10 on a chain holding no shares. -/
theorem C10_exit_status_witness :
    exitCode (RedeemShares.main zeroShareChain "0xAb").2 = 0 ∧
      ∀ s ∈ (RedeemShares.main zeroShareChain "0xAb").1,
        s.isSubmit = false :=
  (C10_exit_status zeroShareChain "0xAb").2.2.2.2.2.2.1 rfl

end Intuition
